import Mathlib

/-!
Verification of the Alf pet-recommendation pipeline.

This file shallowly embeds the parts of the codebase that the verified
properties concern:

* the rule-based product suitability scorer and `analyze_product_suitability`
  (`agents/recommendation_agent.py`),
* the groomer URL canonicalization and `analyze_groomer_suitability`,
* `GroomerAgent.search_for_groomers` with its synthetic fallback,
* the `get_product_recommendations` orchestrator and its sorting of results,
* `HttpClient.get_async` (`utils/http_utils.py`), with each HTTP attempt's
  outcome supplied by an oracle function,
* `extract_product_data` (`scrapers/pet_express_scraper.py`), over an abstract
  DOM tree standing for the (total, error-correcting) html5lib parse.

Python floats in this code only ever hold small multiples of 1/2, so scores
are embedded as rationals.  External calls (OpenAI, Tavily, HTTP transport,
the PetBacker scraper) are modelled as oracle parameters: the embedded
functions are quantified over every outcome those collaborators can produce.
-/

namespace Alf

/-! ### Python string primitives

Strings are manipulated through their character lists so that every operation
is structurally recursive and therefore kernel-computable.  `Char.toLower` is
the ASCII model of Python `str.lower` (all text this system lowercases is
ASCII). -/

/-- Python `str.lower`, ASCII model. -/
def pyLower (s : String) : String :=
  String.mk (s.data.map Char.toLower)

/-- Occurrence test on character lists: does `needle` occur contiguously in
the scanned list?  Matches Python `needle in hay` (the empty needle occurs in
every string). -/
def listContains (needle : List Char) : List Char → Bool
  | [] => needle.isEmpty
  | c :: rest => needle.isPrefixOf (c :: rest) || listContains needle rest

/-- Python `needle in hay` for strings. -/
def strContains (hay needle : String) : Bool :=
  listContains needle.data hay.data

/-- Python `hay.count(needle)` for a non-empty needle: non-overlapping
occurrences scanning left to right.  After a match the scan jumps past it;
the `skip` argument counts the positions still to be skipped. -/
def countOccAux (needle : List Char) : List Char → Nat → Nat
  | [], _ => 0
  | _ :: rest, skip + 1 => countOccAux needle rest skip
  | c :: rest, 0 =>
      if needle.isPrefixOf (c :: rest) then 1 + countOccAux needle rest (needle.length - 1)
      else countOccAux needle rest 0

/-- Python `hay.count(needle)`; an empty needle counts `len(hay) + 1` as in
CPython. -/
def strCount (hay needle : String) : Nat :=
  if needle.data.isEmpty then hay.data.length + 1 else countOccAux needle.data hay.data 0

/-- Python `s.startswith(pre)`. -/
def strStartsWith (s pre : String) : Bool :=
  pre.data.isPrefixOf s.data

/-- Python `hay.split(sep)` for a non-empty separator, with an explicit fuel
argument (each step consumes at least one character, so `hay.length` fuel is
always enough); an empty separator performs no split (that case raises in
Python and is never exercised here). -/
def pySplitFuel (sep : List Char) : Nat → List Char → List (List Char)
  | _, [] => [[]]
  | 0, l => [l]
  | fuel + 1, c :: rest =>
      if sep.isPrefixOf (c :: rest) && !sep.isEmpty then
        [] :: pySplitFuel sep fuel ((c :: rest).drop sep.length)
      else
        match pySplitFuel sep fuel rest with
        | [] => [[c]]
        | h :: t => (c :: h) :: t

/-- Python `hay.split(sep)` for strings. -/
def pySplitOn (hay sep : String) : List String :=
  (pySplitFuel sep.data hay.data.length hay.data).map String.mk

/-- Drop the characters satisfying `p` from both ends of a list. -/
def stripChars (p : Char → Bool) (l : List Char) : List Char :=
  ((l.dropWhile p).reverse.dropWhile p).reverse

/-- The whitespace set of Python `str.strip()`. -/
def isPySpace (c : Char) : Bool :=
  c == ' ' || c == '\t' || c == '\n' || c == '\r' || c == Char.ofNat 11 || c == Char.ofNat 12

/-- Python `s.strip()`. -/
def pyStrip (s : String) : String :=
  String.mk (stripChars isPySpace s.data)

/-- Python `s.strip(chars)` for the single character class containing a dash. -/
def stripDash (s : String) : String :=
  String.mk (stripChars (fun c => c == '-') s.data)

/-- ASCII letter-or-digit test, the character class of the regex used by
`re.sub` at the slug call sites. -/
def isAsciiAlnum (c : Char) : Bool :=
  (('a' ≤ c) && (c ≤ 'z')) || (('A' ≤ c) && (c ≤ 'Z')) || (('0' ≤ c) && (c ≤ '9'))

/-- Python `re.sub(r'[^a-zA-Z0-9]', '-', s)`. -/
def dashSub (s : String) : String :=
  String.mk (s.data.map (fun c => if isAsciiAlnum c then c else '-'))

/-- The slug construction used throughout `recommendation_agent.py`:
`re.sub(r'[^a-zA-Z0-9]', '-', s.lower()).strip('-')`. -/
def slugOf (s : String) : String :=
  stripDash (dashSub (pyLower s))

/-! ### Data model of `recommendation_agent.py`

The pydantic models constrain `suitability_score` with `Field(ge=0, le=10)`;
constructing a model with a score outside `[0, 10]` raises a
`ValidationError`.  The `mk…` functions below embed that validation: they
return `none` exactly when the Python constructor would raise. -/

/-- `ProductReview` (pydantic model). -/
structure ProductReview where
  product_id : String
  title : String
  source : String
  content : String
  rating : Option ℚ

/-- The fields of the product dict that `analyze_product_suitability` reads;
each is read with `product.get(key, "")`, so absent keys are already folded
into the string defaults. -/
structure ProductDict where
  product_id : String
  title : String
  url : String
  price : String
  image_url : String

/-- `ProductRecommendation` (pydantic model). -/
structure ProductRecommendation where
  product_id : String
  title : String
  url : String
  price : String
  image_url : Option String
  reviews : List String
  recommendation_reason : String
  suitability_score : ℚ

/-- Constructing a `ProductRecommendation`: pydantic validates
`suitability_score ∈ [0, 10]` and raises (`none`) otherwise. -/
def mkProductRecommendation (pid title url price : String) (image : Option String)
    (reviews : List String) (reason : String) (score : ℚ) : Option ProductRecommendation :=
  if 0 ≤ score ∧ score ≤ 10 then
    some ⟨pid, title, url, price, image, reviews, reason, score⟩
  else none

/-- `GroomerRecommendation` (pydantic model).  The `location`, `rating`,
`image_url` and `contact_info` fields are extracted by regexes that no
verified property concerns and are not modelled. -/
structure GroomerRecommendation where
  groomer_id : String
  name : String
  url : String
  services : List String
  reviews : List String
  recommendation_reason : String
  suitability_score : ℚ

/-- Constructing a `GroomerRecommendation`: pydantic validates
`suitability_score ∈ [0, 10]` and raises (`none`) otherwise. -/
def mkGroomerRecommendation (gid name url : String) (services reviews : List String)
    (reason : String) (score : ℚ) : Option GroomerRecommendation :=
  if 0 ≤ score ∧ score ≤ 10 then
    some ⟨gid, name, url, services, reviews, reason, score⟩
  else none

/-- Outcome of the OpenAI strategy for one item: no credential configured,
a call/parse failure, or a parsed structured result.  The parsed score is an
arbitrary rational: the model may answer anything. -/
inductive AIAttempt where
  | noKey
  | failed
  | parsed (score : ℚ) (reason : String)

/-! ### Rule-based product scoring (`analyze_product_suitability`, lines 484-596) -/

/-- `breed_terms`: the breed itself plus its fixed synonym table. -/
def breed_terms (dog_breed : String) : List String :=
  let b := pyLower dog_breed
  [b] ++
    (if b = "bulldog" then
      ["english bulldog", "british bulldog", "brachycephalic", "flat-faced", "short-snout"]
    else if b = "german shepherd" then ["gsd", "alsatian", "shepherd", "police dog"]
    else if b = "labrador" then ["lab", "retriever", "labrador retriever"]
    else if b = "poodle" then ["toy poodle", "miniature poodle", "standard poodle"]
    else if b = "shih tzu" then ["shitzu", "chrysanthemum dog", "small breeds"]
    else [])

/-- `age_terms`: the age itself plus its fixed related-term table. -/
def age_terms (age : String) : List String :=
  let a := pyLower age
  [a] ++
    (if a = "puppy" then ["young", "growing", "junior", "youth"]
    else if a = "adult" then ["mature", "grown", "senior"]
    else [])

/-- `all_review_content`: every review content concatenated, each followed by
a single space. -/
def all_review_content (reviews : List ProductReview) : String :=
  String.join (reviews.map (fun r => r.content ++ " "))

/-- `any(term in title.lower() for term in breed_terms)`. -/
def breed_in_title (title dog_breed : String) : Bool :=
  (breed_terms dog_breed).any (fun t => strContains (pyLower title) t)

/-- Sum of the occurrence counts of `terms` in the lowered text (each term is
counted only when present, exactly as the `if term in …: … += ….count(term)`
loop does). -/
def term_mentions (text : String) (terms : List String) : Nat :=
  (terms.map (fun t => if strContains (pyLower text) t then strCount (pyLower text) t else 0)).sum

/-- `breed_mentions` over the aggregated review text. -/
def breed_mentions (reviews : List ProductReview) (dog_breed : String) : Nat :=
  term_mentions (all_review_content reviews) (breed_terms dog_breed)

/-- `any(term in title.lower() for term in age_terms)`. -/
def age_in_title (title age : String) : Bool :=
  (age_terms age).any (fun t => strContains (pyLower title) t)

/-- `age_mentions` over the aggregated review text. -/
def age_mentions (reviews : List ProductReview) (age : String) : Nat :=
  term_mentions (all_review_content reviews) (age_terms age)

/-- The per-breed nutrition/health keyword table (only bulldog and german
shepherd have curated lists in the source). -/
def nutrition_keywords (dog_breed : String) : List String :=
  let b := pyLower dog_breed
  if b = "bulldog" then ["joint", "hip", "breath", "skin", "allergies", "cooling", "grain-free"]
  else if b = "german shepherd" then ["joint", "hip", "digestive", "gut", "protein", "calcium"]
  else []

/-- `nutrition_score`: 0.5 per matched keyword. -/
def nutrition_score (reviews : List ProductReview) (dog_breed : String) : ℚ :=
  (((nutrition_keywords dog_breed).filter
      (fun t => strContains (pyLower (all_review_content reviews)) t)).length : ℚ) * (1 / 2)

/-- The raw rule-based total before the floor at 2 and the ceiling at 10:
`+3` breed in title, `+min(3, breed mentions)`, `+2` age in title,
`+min(2, age mentions)`, `+min(2, nutrition score)`. -/
def product_rule_raw_total (title : String) (reviews : List ProductReview)
    (dog_breed age : String) : ℚ :=
  (if breed_in_title title dog_breed then 3 else 0)
    + (if 0 < breed_mentions reviews dog_breed
        then ((min 3 (breed_mentions reviews dog_breed) : ℕ) : ℚ) else 0)
    + (if age_in_title title age then 2 else 0)
    + (if 0 < age_mentions reviews age then ((min 2 (age_mentions reviews age) : ℕ) : ℚ) else 0)
    + min 2 (nutrition_score reviews dog_breed)

/-- The floored rule-based score (`if suitability_score < 2: suitability_score = 2`);
the reason templates band on this value. -/
def product_rule_floored (title : String) (reviews : List ProductReview)
    (dog_breed age : String) : ℚ :=
  let raw := product_rule_raw_total title reviews dog_breed age
  if raw < 2 then 2 else raw

/-- The final rule-based score: the floored total, clamped to 10 at the
`ProductRecommendation` construction (`min(10.0, suitability_score)`). -/
def product_rule_score (title : String) (reviews : List ProductReview)
    (dog_breed age : String) : ℚ :=
  min 10 (product_rule_floored title reviews dog_breed age)

/-- The reason templates, banded on the floored score. -/
def product_rule_reason (dog_breed age : String) (score : ℚ) : String :=
  if 8 ≤ score then
    "Highly recommended for " ++ dog_breed ++ " " ++ age ++
      "s. Reviews specifically mention this product working well for your breed."
  else if 6 ≤ score then
    "Good match for " ++ dog_breed ++ " " ++ age ++
      "s based on multiple positive reviews and product details."
  else if 4 ≤ score then
    "May be suitable for " ++ dog_breed ++ " " ++ age ++
      "s. Some reviews indicate compatibility but limited specific information available."
  else
    "Limited evidence this product is ideal for " ++ dog_breed ++ " " ++ age ++
      "s. Contains some nutritional elements that could benefit your dog, but consider alternatives specifically formulated for "
      ++ dog_breed ++ "s."

/-- Formatted review block built on the AI path (the float formatting of the
rating line is abbreviated; no verified property concerns this text). -/
def structured_review (r : ProductReview) : String :=
  "Source: " ++ r.title

/-- The rule-based tail of `analyze_product_suitability` (lines 482-596):
review texts default to a placeholder when there are none, the reason is
banded on the floored score, and the recommendation is built with the
floored score clamped to 10. -/
def product_rule_path (product : ProductDict) (reviews : List ProductReview)
    (dog_breed age : String) : Option ProductRecommendation :=
  mkProductRecommendation product.product_id product.title product.url product.price
    (some product.image_url)
    (if reviews.isEmpty then ["No specific reviews found for this product."]
     else reviews.map (fun r => r.content))
    (product_rule_reason dog_breed age (product_rule_floored product.title reviews dog_breed age))
    (min 10 (product_rule_floored product.title reviews dog_breed age))

/-- `analyze_product_suitability`.  The AI branch is taken when the attempt
carries a parsed result; a pydantic `ValidationError` inside the `try` block
(a parsed score below 0) is caught by the `except` and falls back to the
rule-based path, whose own score always lies in `[2, 10]`. -/
def analyze_product_suitability (ai : AIAttempt) (product : ProductDict)
    (reviews : List ProductReview) (dog_breed age : String) : Option ProductRecommendation :=
  match ai with
  | .parsed s reason =>
      match mkProductRecommendation product.product_id product.title product.url product.price
          (some product.image_url) ((reviews.map structured_review).take 3) reason
          (min 10 s) with
      | some r => some r
      | none => product_rule_path product reviews dog_breed age
  | _ => product_rule_path product reviews dog_breed age

/-! ### Groomer analysis (`analyze_groomer_suitability`, lines 752-957) -/

/-- The groomer input dict.  `title`, `url`, `content` and `id` are read with
`.get(key, default)`; `breed_compatibility` is also tested for *presence*
(`"breed_compatibility" not in groomer_data`), so it is kept as an option.
The remaining keys are produced by `search_for_groomers` and are not read by
`analyze_groomer_suitability`. -/
structure GroomerDict where
  title : Option String
  url : Option String
  content : Option String
  id : Option String
  rating : Option ℚ
  reviews : List String
  services : List String
  location : Option String
  contact_info : Option String
  image_url : Option String
  breed_compatibility : Option ℚ

/-- The profile-shaped path patterns tested by `is_profile_url`. -/
def profile_url_patterns : List String :=
  ["/profile/", "/philippines/grooming/", "/ph/pet-sitter/", "/pet-sitter/", "/groomer/"]

/-- `any(pattern in url for pattern in [...])`. -/
def is_profile_url (url : String) : Bool :=
  profile_url_patterns.any (fun p => strContains url p)

/-- Model of `re.search(r'/s/[^/]+/([^/]+)$', url)` followed by
`.group(1) if match else "metro-manila--philippines"`.  The anchored pattern
matches exactly when the URL ends in `/s/<seg>/<seg>` with both segments
non-empty and slash-free, and the captured group is the final segment.
(Python re additionally lets `$` match before one trailing newline; URLs in
this system carry no newline, so that corner is not modelled.) -/
def listing_location (url : String) : String :=
  let parts := pySplitOn url "/"
  if 4 ≤ parts.length
      ∧ parts.getD (parts.length - 3) "" = "s"
      ∧ parts.getD (parts.length - 2) "" ≠ ""
      ∧ parts.getD (parts.length - 1) "" ≠ ""
  then parts.getD (parts.length - 1) ""
  else "metro-manila--philippines"

/-- The URL computation of `analyze_groomer_suitability` (lines 764-806):
an empty URL gets a breed-specialist profile URL; a URL matching a profile
pattern is kept; otherwise a usable groomer id yields `/profile/<id>`, a
`petbacker.ph/s/` listing URL is rewritten to
`/philippines/grooming/<location>/<name-slug>`, and any other URL falls
through every branch and is kept unchanged.  (The
`elif "/philippines/grooming/" in url` branch is unreachable: that substring
is itself a profile pattern.) -/
def analyze_groomer_url (groomer_data : GroomerDict) (dog_breed : String) : String :=
  if groomer_data.url.getD "" = "" then
    "https://www.petbacker.ph/pet-sitter/" ++ slugOf dog_breed ++
      "-specialist/manila--metro-manila--philippines"
  else if is_profile_url (groomer_data.url.getD "") then groomer_data.url.getD ""
  else if groomer_data.id.getD "" ≠ ""
      ∧ strContains (groomer_data.id.getD "") "groomer-" = false then
    "https://www.petbacker.ph/profile/" ++ groomer_data.id.getD ""
  else if strContains (groomer_data.url.getD "") "/philippines/grooming/" then
    groomer_data.url.getD ""
  else if strContains (groomer_data.url.getD "") "petbacker.ph/s/" then
    "https://www.petbacker.ph/philippines/grooming/" ++ listing_location (groomer_data.url.getD "")
      ++ "/" ++ slugOf (groomer_data.title.getD "Unknown Groomer")
  else groomer_data.url.getD ""

/-- The keyword-to-service table of the services extraction. -/
def service_map_entries : List (String × String) :=
  [("bath", "Bathing"), ("groom", "Full Grooming"), ("haircut", "Haircut & Styling"),
   ("nail", "Nail Trimming"), ("trim", "Trimming"), ("shampoo", "Specialized Shampoo Treatment"),
   ("brush", "Brushing & De-shedding"), ("teeth", "Teeth Cleaning"), ("ear", "Ear Cleaning")]

/-- Services extraction: one service per keyword found in the lowered content,
in keyword order (the `if service not in services` dedup never fires since the
nine mapped names are pairwise distinct). -/
def extract_services (content : String) : List String :=
  ((service_map_entries.filter (fun kv => strContains (pyLower content) kv.1)).map
    (fun kv => kv.2))

/-- The groomer rule-based bonus score: `+5` when the breed appears in the
content or the name, `+1` per matched experience keyword, capped at 10.
The same block appears verbatim in the AI-`except` branch and in the
no-AI branch. -/
def groomer_rule_bonus (title content dog_breed : String) : ℚ :=
  let base : ℚ :=
    if strContains (pyLower content) (pyLower dog_breed)
        || strContains (pyLower title) (pyLower dog_breed) then 5 else 0
  let expc : ℕ :=
    (["experience", "professional", "certified", "trained", "specialist"].filter
      (fun t => strContains (pyLower content) t)).length
  min 10 (base + expc)

/-- The groomer reason templates, banded at 7 and 5. -/
def groomer_reason (dog_breed : String) (score : ℚ) : String :=
  if 7 ≤ score then
    "Highly recommended groomer for " ++ dog_breed ++ " dogs with specialized experience."
  else if 5 ≤ score then
    "Good groomer with some experience handling " ++ dog_breed ++ " dogs."
  else
    "General pet groomer that may be able to handle " ++ dog_breed ++ " dogs."

/-- The score-and-reason computation of `analyze_groomer_suitability`
(lines 852-943).  The AI branch runs only when a credential is available
*and* the dict carries no `breed_compatibility` key; a parsed AI score is
used unclamped with the AI reason; an AI failure falls to the rule-based
bonus.  Without the AI branch, the `breed_compatibility` seed is used as-is
when non-zero, and the rule-based bonus is computed only when the seed is 0
or absent. -/
def groomer_score_reason (hasKey : Bool) (ai : AIAttempt) (breed_compat : Option ℚ)
    (title content dog_breed : String) : ℚ × String :=
  if hasKey ∧ breed_compat = none then
    match ai with
    | .parsed s r => (s, r)
    | _ =>
        let s := groomer_rule_bonus title content dog_breed
        (s, groomer_reason dog_breed s)
  else
    let seed := breed_compat.getD 0
    let s := if seed = 0 then groomer_rule_bonus title content dog_breed else seed
    (s, groomer_reason dog_breed s)

/-- `analyze_groomer_suitability`: canonicalize the URL, derive the id from
it, extract services from the content, compute score and reason, and build
the `GroomerRecommendation` (this construction is outside the `try`, so a
pydantic `ValidationError` — a score outside `[0, 10]` — propagates:
`none`). -/
def analyze_groomer_suitability (hasKey : Bool) (ai : AIAttempt)
    (groomer_data : GroomerDict) (dog_breed : String) : Option GroomerRecommendation :=
  mkGroomerRecommendation
    (stripDash (dashSub (analyze_groomer_url groomer_data dog_breed)))
    (groomer_data.title.getD "Unknown Groomer")
    (analyze_groomer_url groomer_data dog_breed)
    (extract_services (groomer_data.content.getD ""))
    [groomer_data.content.getD ""]
    (groomer_score_reason hasKey ai groomer_data.breed_compatibility
      (groomer_data.title.getD "Unknown Groomer") (groomer_data.content.getD "") dog_breed).2
    (groomer_score_reason hasKey ai groomer_data.breed_compatibility
      (groomer_data.title.getD "Unknown Groomer") (groomer_data.content.getD "") dog_breed).1

/-! ### `GroomerAgent.search_for_groomers` (lines 695-750)

The PetBacker scraper call (`search_petbacker_groomers`) is an external
collaborator here: its outcome — an exception or a list of groomer dicts —
is an oracle parameter. -/

/-- A groomer dict as returned by the PetBacker scraper; every field is read
with `.get(key, default)`. -/
structure ScrapedGroomer where
  name : Option String
  url : Option String
  about : Option String
  rating : Option ℚ
  reviews : List String
  services : List String
  location : Option String
  contact_info : Option String
  image_url : Option String
  breed_compatibility : Option ℚ

/-- The per-groomer conversion loop of `search_for_groomers` (lines 711-725).
The converted dict carries no `id` key. -/
def convert_groomer (location : String) (g : ScrapedGroomer) : GroomerDict :=
  { title := some (g.name.getD "Unknown Groomer")
  , url := some (g.url.getD "")
  , content := some (g.about.getD "")
  , id := none
  , rating := some (g.rating.getD 0)
  , reviews := g.reviews
  , services := g.services
  , location := some (g.location.getD location)
  , contact_info := some (g.contact_info.getD "Contact via petbacker.ph")
  , image_url := some (g.image_url.getD "")
  , breed_compatibility := some (g.breed_compatibility.getD 7) }

/-- The mock fallback groomer dict (lines 738-750). -/
def mock_groomer (dog_breed : String) : GroomerDict :=
  { title := some ("Professional " ++ dog_breed ++ " Groomer")
  , url := some "https://www.petbacker.ph/s/dog-grooming/manila--metro-manila--philippines"
  , content := some ("We specialize in grooming " ++ dog_breed ++
      " dogs with over 5 years of experience. Our services include bathing, haircuts, nail trimming, and more.")
  , id := none
  , rating := some 4.8
  , reviews := ["Great experience with my " ++ dog_breed ++ "!", "Very professional service"]
  , services := ["Full Grooming", "Bathing", "Nail Trimming"]
  , location := some "Manila, Philippines"
  , contact_info := some "Contact via petbacker.ph"
  , image_url := none
  , breed_compatibility := some 8 }

/-- `GroomerAgent.search_for_groomers`: on a scraper exception, or when the
scraper returns no groomers, the mock fallback record is returned instead. -/
def search_for_groomers (scraper_outcome : Except String (List ScrapedGroomer))
    (dog_breed location : String) : List GroomerDict :=
  match scraper_outcome with
  | .error _ => [mock_groomer dog_breed]
  | .ok gs =>
      let results := gs.map (convert_groomer location)
      if results.isEmpty then [mock_groomer dog_breed] else results

/-! ### `get_product_recommendations` (lines 1028-1223)

Python `sorted(key=lambda x: x.suitability_score, reverse=True)` is the
stable descending sort by score; it is embedded as `List.insertionSort` with
the reflexive relation "score at least as large", which is exactly the stable
descending sort. -/

/-- The descending-score ordering on product recommendations. -/
def prodDesc (a b : ProductRecommendation) : Prop :=
  b.suitability_score ≤ a.suitability_score

instance : DecidableRel prodDesc :=
  fun a b => inferInstanceAs (Decidable (b.suitability_score ≤ a.suitability_score))

instance : IsTotal ProductRecommendation prodDesc :=
  ⟨fun a b => le_total b.suitability_score a.suitability_score⟩

instance : IsTrans ProductRecommendation prodDesc :=
  ⟨fun _ _ _ h1 h2 => le_trans h2 h1⟩

/-- The descending-score ordering on groomer recommendations. -/
def groomDesc (a b : GroomerRecommendation) : Prop :=
  b.suitability_score ≤ a.suitability_score

instance : DecidableRel groomDesc :=
  fun a b => inferInstanceAs (Decidable (b.suitability_score ≤ a.suitability_score))

instance : IsTotal GroomerRecommendation groomDesc :=
  ⟨fun a b => le_total b.suitability_score a.suitability_score⟩

instance : IsTrans GroomerRecommendation groomDesc :=
  ⟨fun _ _ _ h1 h2 => le_trans h2 h1⟩

/-- `sorted(recommendations, key=lambda x: x.suitability_score, reverse=True)`. -/
def sort_recs (l : List ProductRecommendation) : List ProductRecommendation :=
  List.insertionSort prodDesc l

/-- `sorted(groomer_recommendations, key=lambda x: x.suitability_score, reverse=True)`. -/
def sort_groomers (l : List GroomerRecommendation) : List GroomerRecommendation :=
  List.insertionSort groomDesc l

/-- `RecommendationResponse` (pydantic model). -/
structure RecommendationResponse where
  query : String
  dog_breed : String
  age : String
  recommendations : List ProductRecommendation
  groomer_recommendations : Option (List GroomerRecommendation)
  summary : String
  groomer_summary : Option String

/-- The per-product loop of `get_product_recommendations`: the review search
outcome and the AI outcome for the product at each index are oracles; a
failed review retrieval yields an empty review list, and a product whose
analysis raises is skipped (`filterMap`). -/
def product_recs_unsorted (products : List ProductDict)
    (reviews_for : Nat → Except String (List ProductReview)) (ai_for : Nat → AIAttempt)
    (dog_breed age : String) (max_products : Nat) : List ProductRecommendation :=
  (products.take max_products).enum.filterMap
    (fun p => analyze_product_suitability (ai_for p.1) p.2
      ((reviews_for p.1).toOption.getD []) dog_breed age)

/-- The template product summary (the fallback path of
`generate_recommendations_summary`; the AI-written variant and the float
formatting are not modelled — no verified property concerns summary text,
and the apostrophes of the original text are dropped). -/
def generate_recommendations_summary (query dog_breed age : String)
    (recommendations : List ProductRecommendation) : String :=
  match (sort_recs recommendations).head? with
  | none =>
      "No suitable products found for " ++ dog_breed ++ " " ++ age ++
        "s based on your search for " ++ query ++ "."
  | some top =>
      "Based on your search for " ++ query ++ " for your " ++ dog_breed ++ " " ++ age ++
        ", we highly recommend " ++ top.title ++ "."

/-- The fallback groomer built when no groomer analysis succeeded
(lines 1159-1175 and 1178-1195, identical records). -/
def fallback_groomer (dog_breed : String) : GroomerRecommendation :=
  { groomer_id := "fallback-groomer"
  , name := dog_breed ++ " Grooming Specialist"
  , url := "https://www.petbacker.ph/pet-sitter/" ++ slugOf dog_breed ++
      "-specialist/manila--metro-manila--philippines"
  , services := ["Full Grooming", "Bathing", "Nail Trimming"]
  , reviews := ["Specializes in " ++ dog_breed ++ " grooming and care."]
  , recommendation_reason := "General pet groomer that may be able to handle " ++ dog_breed ++ " dogs."
  , suitability_score := 6.5 }

/-- The fallback groomer built when the whole groomer stage raises
(lines 1199-1210). -/
def fallback_error_groomer (dog_breed : String) : GroomerRecommendation :=
  { groomer_id := "fallback-error-groomer"
  , name := dog_breed ++ " Grooming Service"
  , url := "https://www.petbacker.ph/s/dog-grooming/manila--metro-manila--philippines"
  , services := ["Full Grooming", "Bathing", "Nail Trimming"]
  , reviews := ["General grooming service that accepts all dog breeds."]
  , recommendation_reason := "General pet groomer that accepts all dog breeds including " ++ dog_breed ++ "."
  , suitability_score := 5 }

/-- The summary paired with `fallback_groomer`. -/
def fallback_groomer_summary (dog_breed : String) : String :=
  "We found a groomer that may be suitable for your " ++ dog_breed ++
    ". Please contact them directly for more specific information about their experience with your dog breed."

/-- The template groomer summary (fallback path of `generate_groomer_summary`;
abbreviated as for the product summary). -/
def generate_groomer_summary (dog_breed : String) (groomers : List GroomerRecommendation) : String :=
  match groomers.head? with
  | none => "We could not find any specialized groomers for your " ++ dog_breed ++ "."
  | some top =>
      "Based on our search for groomers specializing in " ++ dog_breed ++
        " dogs, we highly recommend " ++ top.name ++ "."

/-- The per-groomer loop of `get_product_recommendations` (lines 1133-1145)
in input order, before any sorting: each searched groomer is analyzed with
its own AI-outcome oracle, and a groomer whose analysis raises is skipped
(`filterMap`). -/
def groomer_recs_unsorted (scraper_outcome : Except String (List ScrapedGroomer))
    (hasKey : Bool) (groomer_ai_for : Nat → AIAttempt) (dog_breed : String) :
    List GroomerRecommendation :=
  (search_for_groomers scraper_outcome dog_breed "Philippines").enum.filterMap
    (fun g => analyze_groomer_suitability hasKey (groomer_ai_for g.1) g.2 dog_breed)

/-- The groomer stage of `get_product_recommendations` (lines 1115-1212):
search (with its own fallback), per-groomer analysis with failures skipped,
stable descending sort when anything survived, the fallback groomer
otherwise, and the error-fallback groomer when the whole stage raises
(`groomer_stage_raises` is the oracle for that outer exception). -/
def groomer_stage (include_groomers groomer_stage_raises : Bool)
    (scraper_outcome : Except String (List ScrapedGroomer)) (hasKey : Bool)
    (groomer_ai_for : Nat → AIAttempt) (dog_breed : String) :
    Option (List GroomerRecommendation) × Option String :=
  if include_groomers then
    if groomer_stage_raises then
      (some [fallback_error_groomer dog_breed],
       some ("We found a general grooming service that should be able to accommodate your "
          ++ dog_breed ++ "."))
    else if (search_for_groomers scraper_outcome dog_breed "Philippines").isEmpty then
      (some [fallback_groomer dog_breed], some (fallback_groomer_summary dog_breed))
    else if (groomer_recs_unsorted scraper_outcome hasKey groomer_ai_for dog_breed).isEmpty then
      (some [fallback_groomer dog_breed], some (fallback_groomer_summary dog_breed))
    else
      (some (sort_groomers (groomer_recs_unsorted scraper_outcome hasKey groomer_ai_for dog_breed)),
       some (generate_groomer_summary dog_breed
         (sort_groomers (groomer_recs_unsorted scraper_outcome hasKey groomer_ai_for dog_breed))))
  else (none, none)

/-- `get_product_recommendations`: analyze each product, sort descending by
score, attach the groomer stage, and assemble the response. -/
def get_product_recommendations (products : List ProductDict) (query dog_breed age : String)
    (reviews_for : Nat → Except String (List ProductReview)) (ai_for : Nat → AIAttempt)
    (max_products : Nat) (include_groomers : Bool)
    (scraper_outcome : Except String (List ScrapedGroomer)) (hasKey : Bool)
    (groomer_ai_for : Nat → AIAttempt) (groomer_stage_raises : Bool) : RecommendationResponse :=
  let recommendations := product_recs_unsorted products reviews_for ai_for dog_breed age max_products
  let sorted_recommendations := sort_recs recommendations
  let gpair := groomer_stage include_groomers groomer_stage_raises scraper_outcome hasKey
    groomer_ai_for dog_breed
  { query := query
  , dog_breed := dog_breed
  , age := age
  , recommendations := sorted_recommendations
  , groomer_recommendations := gpair.1
  , summary := generate_recommendations_summary query dog_breed age sorted_recommendations
  , groomer_summary := gpair.2 }

/-! ### `HttpClient.get_async` (`utils/http_utils.py`, lines 16-53)

Each HTTP attempt's outcome is supplied by an oracle indexed by the attempt
number; the loop state `retry_count` equals the number of attempts made so
far.  The loop is embedded structurally on the number of loop iterations
still allowed (`max_retries - retry_count`). -/

/-- The transport errors caught by the `except` clause. -/
inductive TransportError where
  | connectError
  | readTimeout
  | connectTimeout
deriving DecidableEq

/-- The outcome of one HTTP attempt: a response with a status code, one of
the three caught transport errors, or any other exception (which the code
does not catch). -/
inductive AttemptOutcome where
  | resp (status : Nat)
  | transport (e : TransportError)
  | otherError (msg : String)

/-- How `get_async` ends, with the total number of HTTP attempts made. -/
inductive GetResult where
  | returned (status : Nat) (attempts : Nat)
  | transportRaised (e : TransportError) (attempts : Nat)
  | exhaustedRaised (attempts : Nat)
  | uncaughtRaised (msg : String) (attempts : Nat)
deriving DecidableEq

/-- The retry loop.  `rc` is `retry_count` (also the number of attempts made
so far); the second argument is `max_retries - rc`, the number of loop
iterations still allowed.  A 200 or any status that is neither 429 nor 5xx
returns immediately; a retryable status increments `retry_count`; a caught
transport error increments `retry_count` and re-raises when the cap is
reached; exiting the loop raises the exhaustion failure. -/
def get_async_loop (oracle : Nat → AttemptOutcome) : Nat → Nat → GetResult
  | rc, 0 => .exhaustedRaised rc
  | rc, remaining + 1 =>
      match oracle rc with
      | .resp s =>
          if s = 200 then .returned s (rc + 1)
          else if s ≠ 429 ∧ ¬ (500 ≤ s ∧ s < 600) then .returned s (rc + 1)
          else get_async_loop oracle (rc + 1) remaining
      | .transport e =>
          if remaining = 0 then .transportRaised e (rc + 1)
          else get_async_loop oracle (rc + 1) remaining
      | .otherError m => .uncaughtRaised m (rc + 1)

/-- `HttpClient.get_async` with the given attempt oracle and `max_retries`. -/
def get_async (oracle : Nat → AttemptOutcome) (max_retries : Nat) : GetResult :=
  get_async_loop oracle 0 max_retries

/-- The number of HTTP attempts a result records. -/
def attemptsOf : GetResult → Nat
  | .returned _ n => n
  | .transportRaised _ n => n
  | .exhaustedRaised n => n
  | .uncaughtRaised _ n => n

/-- The retry conditions: HTTP 429, HTTP 5xx, or one of the three caught
transport errors. -/
def retryCondition : AttemptOutcome → Prop
  | .resp s => s = 429 ∨ (500 ≤ s ∧ s < 600)
  | .transport _ => True
  | .otherError _ => False

/-! ### `extract_product_data` (`scrapers/pet_express_scraper.py`, lines 24-79)

html5lib parsing is total and error-correcting: every input string, however
malformed, produces a document tree.  The parse is therefore an arbitrary
total function into the abstract DOM below, and the theorems quantify over
it.  The CSS selectors used are all of the single `tag.class` form. -/

/-- Abstract DOM node. -/
inductive Node where
  | text (s : String)
  | elem (tag : String) (classes : List String) (attrs : List (String × String)) (children : List Node)

/-- The children of a node. -/
def childrenOf : Node → List Node
  | .text _ => []
  | .elem _ _ _ ch => ch

/-- All elements in the forest (each root, then its descendants, in document
order) matching `tag.class`. -/
def selectList (tag cls : String) : List Node → List Node
  | [] => []
  | .text _ :: rest => selectList tag cls rest
  | .elem t cs a ch :: rest =>
      (if t == tag && cs.contains cls then [Node.elem t cs a ch] else [])
        ++ selectList tag cls ch ++ selectList tag cls rest

/-- `card.select_one('tag.class')`: first matching descendant. -/
def selectOne (tag cls : String) (n : Node) : Option Node :=
  (selectList tag cls (childrenOf n)).head?

/-- Concatenated text of a node forest (BeautifulSoup `.text`). -/
def innerTextList : List Node → String
  | [] => ""
  | .text s :: rest => s ++ innerTextList rest
  | .elem _ _ _ ch :: rest => innerTextList ch ++ innerTextList rest

/-- BeautifulSoup `.text` of one node. -/
def innerText : Node → String
  | .text s => s
  | .elem _ _ _ ch => innerTextList ch

/-- `element.get(key, default)`. -/
def attrD (n : Node) (key dflt : String) : String :=
  match n with
  | .elem _ _ attrs _ => ((attrs.find? (fun kv => kv.1 == key)).map (fun kv => kv.2)).getD dflt
  | .text _ => dflt

/-- Python list indexing, which raises `IndexError` out of range. -/
def pyIndex {α : Type} (l : List α) (i : Nat) : Except String α :=
  match l.get? i with
  | some x => Except.ok x
  | none => Except.error "IndexError"

/-- The storefront base URL. -/
def BASE_URL : String := "https://www.petexpress.com.ph"

/-- Simplified model of `urllib.parse.urljoin` for the href shapes this
scraper meets: an absolute href is kept, a protocol-relative or root-relative
href is joined onto the base.  (A total external-library function; no
verified property depends on the value it produces.) -/
def urljoin (base rel : String) : String :=
  if strStartsWith rel "http" then rel
  else if strStartsWith rel "//" then "https:" ++ rel
  else base ++ rel

/-- One extracted product record (the dict appended at lines 65-74). -/
structure ExtractedProduct where
  product_id : Option String
  title : String
  url : String
  image_url : Option String
  price : String
  compare_price : Option String
  on_sale : Bool
  in_stock : Bool

/-- The body of the per-card `try` block.  A card without the required link
yields `ok none` (the `continue`); the indexing after the `'products/'` split
is the fallible operation the surrounding `try/except` guards. -/
def processCard (card : Node) : Except String (Option ExtractedProduct) :=
  match selectOne "a" "product-item__image-wrapper" card with
  | none => Except.ok none
  | some product_link => do
      let product_url := urljoin BASE_URL (attrD product_link "href" "")
      let product_id ←
        if strContains product_url "products/" then do
          let seg ← pyIndex (pySplitOn product_url "products/") 1
          pure (some seg)
        else pure none
      let title :=
        match selectOne "a" "product-item__title" card with
        | some t => pyStrip (innerText t)
        | none => "Unknown Title"
      let image_url :=
        match selectOne "img" "product-item__primary-image" card with
        | some img =>
            some (if strStartsWith (attrD img "data-src" "") "//"
              then "https:" ++ attrD img "data-src" ""
              else attrD img "data-src" "")
        | none => none
      let price :=
        match selectOne "span" "price" card with
        | some p => pyStrip (innerText p)
        | none => "Price not available"
      let compare_price := (selectOne "span" "price--compare" card).map (fun c => pyStrip (innerText c))
      let in_stock := (selectOne "span" "product-item__label--sold-out" card).isNone
      Except.ok (some
        { product_id := product_id
        , title := title
        , url := product_url
        , image_url := image_url
        , price := price
        , compare_price := compare_price
        , on_sale := compare_price.isSome
        , in_stock := in_stock })

/-- The card loop: a card whose processing raises is skipped (the `except`
prints a warning and continues), as is a card without its link. -/
def extractCards : List Node → List ExtractedProduct
  | [] => []
  | c :: cs =>
      match processCard c with
      | .ok (some p) => p :: extractCards cs
      | _ => extractCards cs

/-- `extract_product_data` over a parsed document forest. -/
def extract_product_data (doc : List Node) : List ExtractedProduct :=
  extractCards (selectList "div" "product-item" doc)

/-! ### Helper lemmas -/

theorem mkProductRecommendation_bounds {pid title url price : String} {image : Option String}
    {reviews : List String} {reason : String} {score : ℚ} {r : ProductRecommendation}
    (h : mkProductRecommendation pid title url price image reviews reason score = some r) :
    0 ≤ r.suitability_score ∧ r.suitability_score ≤ 10 := by
  unfold mkProductRecommendation at h
  split at h
  case isTrue hc => cases h; exact hc
  case isFalse hc => cases h

theorem mkGroomerRecommendation_bounds {gid name url : String} {services reviews : List String}
    {reason : String} {score : ℚ} {g : GroomerRecommendation}
    (h : mkGroomerRecommendation gid name url services reviews reason score = some g) :
    0 ≤ g.suitability_score ∧ g.suitability_score ≤ 10 := by
  unfold mkGroomerRecommendation at h
  split at h
  case isTrue hc => cases h; exact hc
  case isFalse hc => cases h

theorem mkProductRecommendation_of_bounds (pid title url price : String) (image : Option String)
    (reviews : List String) (reason : String) (score : ℚ) (h : 0 ≤ score ∧ score ≤ 10) :
    mkProductRecommendation pid title url price image reviews reason score
      = some ⟨pid, title, url, price, image, reviews, reason, score⟩ :=
  if_pos h

theorem mkGroomerRecommendation_of_bounds (gid name url : String) (services reviews : List String)
    (reason : String) (score : ℚ) (h : 0 ≤ score ∧ score ≤ 10) :
    mkGroomerRecommendation gid name url services reviews reason score
      = some ⟨gid, name, url, services, reviews, reason, score⟩ :=
  if_pos h

/-- The floor at 2 is exactly `max 2`. -/
theorem product_rule_floored_eq_max (title : String) (reviews : List ProductReview)
    (dog_breed age : String) :
    product_rule_floored title reviews dog_breed age
      = max 2 (product_rule_raw_total title reviews dog_breed age) := by
  unfold product_rule_floored
  rcases lt_or_le (product_rule_raw_total title reviews dog_breed age) 2 with h | h
  · rw [if_pos h]; exact (max_eq_left h.le).symm
  · rw [if_neg (not_lt.mpr h)]; exact (max_eq_right h).symm

/-- The rule-based product score lies in `[2, 10]`. -/
theorem product_rule_score_bounds (title : String) (reviews : List ProductReview)
    (dog_breed age : String) :
    2 ≤ product_rule_score title reviews dog_breed age
      ∧ product_rule_score title reviews dog_breed age ≤ 10 := by
  unfold product_rule_score
  rw [product_rule_floored_eq_max]
  exact ⟨le_min (by norm_num) (le_max_left _ _), min_le_left _ _⟩

/-- The rule-based path always produces a recommendation carrying exactly
the rule-based score. -/
theorem product_rule_path_spec (product : ProductDict) (reviews : List ProductReview)
    (dog_breed age : String) :
    ∃ r, product_rule_path product reviews dog_breed age = some r
      ∧ r.suitability_score = product_rule_score product.title reviews dog_breed age := by
  have hb := product_rule_score_bounds product.title reviews dog_breed age
  have hb' : 0 ≤ product_rule_score product.title reviews dog_breed age
      ∧ product_rule_score product.title reviews dog_breed age ≤ 10 :=
    ⟨le_trans (by norm_num) hb.1, hb.2⟩
  exact ⟨_, mkProductRecommendation_of_bounds _ _ _ _ _ _ _ _ hb', rfl⟩

/-- `analyze_product_suitability` always succeeds, its score lies in
`[0, 10]`, and on the rule-based path (no credential, or a failed AI call)
the score is exactly the rule-based score. -/
theorem analyze_product_score_spec (ai : AIAttempt) (product : ProductDict)
    (reviews : List ProductReview) (dog_breed age : String) :
    ∃ r, analyze_product_suitability ai product reviews dog_breed age = some r
      ∧ (0 ≤ r.suitability_score ∧ r.suitability_score ≤ 10)
      ∧ ((ai = AIAttempt.noKey ∨ ai = AIAttempt.failed) →
          r.suitability_score = product_rule_score product.title reviews dog_breed age) := by
  have hb := product_rule_score_bounds product.title reviews dog_breed age
  obtain ⟨rr, hrr, hrs⟩ := product_rule_path_spec product reviews dog_breed age
  have hrb : 0 ≤ rr.suitability_score ∧ rr.suitability_score ≤ 10 := by
    rw [hrs]; exact ⟨le_trans (by norm_num) hb.1, hb.2⟩
  cases ai with
  | noKey => exact ⟨rr, hrr, hrb, fun _ => hrs⟩
  | failed => exact ⟨rr, hrr, hrb, fun _ => hrs⟩
  | parsed s reason =>
      show ∃ r, (match mkProductRecommendation product.product_id product.title product.url
          product.price (some product.image_url) ((reviews.map structured_review).take 3) reason
          (min 10 s) with
        | some r => some r
        | none => product_rule_path product reviews dog_breed age) = some r ∧ _
      cases hm : mkProductRecommendation product.product_id product.title product.url
          product.price (some product.image_url) ((reviews.map structured_review).take 3) reason
          (min 10 s) with
      | some r =>
          exact ⟨r, rfl, mkProductRecommendation_bounds hm, by rintro (h | h) <;> cases h⟩
      | none =>
          exact ⟨rr, hrr, hrb, by rintro (h | h) <;> cases h⟩

/-- The groomer rule-based bonus lies in `[0, 10]`. -/
theorem groomer_rule_bonus_bounds (title content dog_breed : String) :
    0 ≤ groomer_rule_bonus title content dog_breed
      ∧ groomer_rule_bonus title content dog_breed ≤ 10 := by
  unfold groomer_rule_bonus
  constructor
  · refine le_min (by norm_num) ?_
    have h1 : (0:ℚ) ≤ (if strContains (pyLower content) (pyLower dog_breed)
        || strContains (pyLower title) (pyLower dog_breed) then (5:ℚ) else 0) := by
      split <;> norm_num
    positivity
  · exact min_le_left _ _

/-- Without an AI credential, a non-zero seed passes through unchanged. -/
theorem groomer_score_reason_seed (ai : AIAttempt) (breed_compat : Option ℚ)
    (title content dog_breed : String) (v : ℚ) (hseed : breed_compat = some v) (hv : v ≠ 0) :
    (groomer_score_reason false ai breed_compat title content dog_breed).1 = v := by
  unfold groomer_score_reason
  rw [if_neg (by simp), hseed]
  simp [hv]

/-- Without an AI credential, a zero or absent seed yields the rule bonus. -/
theorem groomer_score_reason_bonus (ai : AIAttempt) (breed_compat : Option ℚ)
    (title content dog_breed : String)
    (h : breed_compat = none ∨ breed_compat = some 0) :
    (groomer_score_reason false ai breed_compat title content dog_breed).1
      = groomer_rule_bonus title content dog_breed := by
  unfold groomer_score_reason
  rw [if_neg (by simp)]
  rcases h with rfl | rfl <;> simp

/-! ### Fixtures used by the witnesses -/

/-- Fixture: a groomer dict carrying a profile-shaped URL and a non-zero
compatibility seed. -/
def seed_groomer_fixture : GroomerDict :=
  { title := some "Happy Paws"
  , url := some "https://www.petbacker.ph/profile/abc123"
  , content := some ""
  , id := none
  , rating := none
  , reviews := []
  , services := []
  , location := none
  , contact_info := none
  , image_url := none
  , breed_compatibility := some 7 }

/-- Fixture: a product dict whose title names the breed and the age. -/
def product_fixture : ProductDict :=
  ⟨"pid-1", "Poodle Adult Food", "https://shop/products/poodle-adult-food", "100", "img"⟩

/-! ### The claims -/

/-- C1: for every `ProductRecommendation` and every `GroomerRecommendation`
that `analyze_product_suitability` and `analyze_groomer_suitability`
successfully return — over any product/groomer input, any review list, any
breed, any age, on either the AI or the rule-based path — the
`suitability_score` field lies in the closed interval `[0, 10]`.  (On the
product side an analysis in fact always succeeds: an out-of-range AI score
raises inside the `try` and falls back to the rule-based path; on the
groomer side the pydantic validation refuses any score outside the range.) -/
theorem suitability_score_within_zero_ten :
    ∀ (ai : AIAttempt) (product : ProductDict) (reviews : List ProductReview)
      (dog_breed age : String) (hasKey : Bool) (gai : AIAttempt) (gd : GroomerDict)
      (gbreed : String),
      (∃ r, analyze_product_suitability ai product reviews dog_breed age = some r
          ∧ 0 ≤ r.suitability_score ∧ r.suitability_score ≤ 10)
      ∧ (∀ g, analyze_groomer_suitability hasKey gai gd gbreed = some g →
          0 ≤ g.suitability_score ∧ g.suitability_score ≤ 10) := by
  intro ai product reviews dog_breed age hasKey gai gd gbreed
  constructor
  · obtain ⟨r, hr, hb, _⟩ := analyze_product_score_spec ai product reviews dog_breed age
    exact ⟨r, hr, hb⟩
  · intro g hg
    exact mkGroomerRecommendation_bounds hg

/-- C1 witness: a concrete groomer analysis that succeeds, with the bounds
supplied by the theorem. -/
theorem suitability_score_within_zero_ten_check :
    ∃ g, analyze_groomer_suitability false AIAttempt.failed seed_groomer_fixture "poodle" = some g
      ∧ 0 ≤ g.suitability_score ∧ g.suitability_score ≤ 10 := by
  have hs : (analyze_groomer_suitability false AIAttempt.failed seed_groomer_fixture
      "poodle").isSome = true := by decide
  obtain ⟨g, hg⟩ := Option.isSome_iff_exists.mp hs
  exact ⟨g, hg,
    (suitability_score_within_zero_ten AIAttempt.noKey product_fixture [] "poodle" "adult"
      false AIAttempt.failed seed_groomer_fixture "poodle").2 g hg⟩

/-- C3: whenever the rule-based product scoring path is taken (no AI
credential, or an AI failure), the analysis succeeds and the returned score
is the raw rule total clamped up to 2 from below and down to 10 from above —
hence always within `[2, 10]`. -/
theorem rule_based_product_score_clamped :
    ∀ (product : ProductDict) (reviews : List ProductReview) (dog_breed age : String)
      (ai : AIAttempt),
      ai = AIAttempt.noKey ∨ ai = AIAttempt.failed →
      ∃ r, analyze_product_suitability ai product reviews dog_breed age = some r
        ∧ r.suitability_score
            = min 10 (max 2 (product_rule_raw_total product.title reviews dog_breed age))
        ∧ 2 ≤ r.suitability_score ∧ r.suitability_score ≤ 10 := by
  intro product reviews dog_breed age ai hai
  obtain ⟨r, hr, _, hrs⟩ := analyze_product_score_spec ai product reviews dog_breed age
  have he := hrs hai
  have hb := product_rule_score_bounds product.title reviews dog_breed age
  refine ⟨r, hr, ?_, ?_, ?_⟩
  · rw [he]; unfold product_rule_score; rw [product_rule_floored_eq_max]
  · rw [he]; exact hb.1
  · rw [he]; exact hb.2

/-- C3 witness: the clamped characterization at a concrete product with no
reviews and no AI credential. -/
theorem rule_based_product_score_clamped_check :
    ∃ r, analyze_product_suitability AIAttempt.noKey product_fixture [] "poodle" "adult" = some r
      ∧ r.suitability_score
          = min 10 (max 2 (product_rule_raw_total product_fixture.title [] "poodle" "adult"))
      ∧ 2 ≤ r.suitability_score ∧ r.suitability_score ≤ 10 :=
  rule_based_product_score_clamped product_fixture [] "poodle" "adult" AIAttempt.noKey (Or.inl rfl)

/-- C4: the product titled "Labrador Adult Formula" with an empty review
list, breed "Labrador", age "adult", on the rule-based path: the breed term
is found in the title (+3), the age term is found in the title (+2), the
review-derived and nutrition-keyword bonuses are zero, and
`analyze_product_suitability` returns suitability score exactly 5. -/
theorem labrador_adult_formula_scores_five :
    breed_in_title "Labrador Adult Formula" "Labrador" = true
    ∧ age_in_title "Labrador Adult Formula" "adult" = true
    ∧ breed_mentions [] "Labrador" = 0
    ∧ age_mentions [] "adult" = 0
    ∧ nutrition_score [] "Labrador" = 0
    ∧ (analyze_product_suitability AIAttempt.noKey
        ⟨"labrador-adult-formula", "Labrador Adult Formula", "u", "p", "i"⟩
        [] "Labrador" "adult").map (fun r => r.suitability_score) = some 5 := by
  have h1 : breed_in_title "Labrador Adult Formula" "Labrador" = true := by decide
  have h2 : age_in_title "Labrador Adult Formula" "adult" = true := by decide
  have h3 : breed_mentions [] "Labrador" = 0 := by decide
  have h4 : age_mentions [] "adult" = 0 := by decide
  have h5 : nutrition_keywords "Labrador" = [] := by decide
  have h5q : nutrition_score [] "Labrador" = 0 := by
    unfold nutrition_score
    rw [h5]
    norm_num
  have hraw : product_rule_raw_total "Labrador Adult Formula" [] "Labrador" "adult" = 5 := by
    unfold product_rule_raw_total
    rw [h1, h2, h3, h4, h5q]
    norm_num
  have hfl : product_rule_floored "Labrador Adult Formula" [] "Labrador" "adult" = 5 := by
    unfold product_rule_floored
    rw [hraw]
    norm_num
  have hscore : product_rule_score "Labrador Adult Formula" [] "Labrador" "adult" = 5 := by
    unfold product_rule_score
    rw [hfl]
    norm_num
  obtain ⟨r, hr, hs⟩ := product_rule_path_spec
    ⟨"labrador-adult-formula", "Labrador Adult Formula", "u", "p", "i"⟩ [] "Labrador" "adult"
  refine ⟨h1, h2, h3, h4, h5q, ?_⟩
  show (product_rule_path
      ⟨"labrador-adult-formula", "Labrador Adult Formula", "u", "p", "i"⟩
      [] "Labrador" "adult").map (fun r => r.suitability_score) = some 5
  rw [hr]
  show some r.suitability_score = some 5
  rw [hs]
  exact congrArg some hscore

/-- C8: `GroomerAgent.search_for_groomers` always returns at least one
record: a scraper exception or an empty scraper result is replaced by the
synthetic fallback groomer. -/
theorem search_for_groomers_nonempty :
    ∀ (scraper_outcome : Except String (List ScrapedGroomer)) (dog_breed location : String),
      1 ≤ (search_for_groomers scraper_outcome dog_breed location).length := by
  intro o dog_breed location
  cases o with
  | error e => simp [search_for_groomers]
  | ok gs =>
      cases gs with
      | nil => simp [search_for_groomers]
      | cons g gs' => simp [search_for_groomers]

/-- C9 (implicit): without an OpenAI credential, a groomer dict carrying a
`breed_compatibility` seed `v` with `0 < v ≤ 10` produces suitability score
exactly `v`; the breed-in-name and experience-keyword bonuses are computed
only when the seed is 0 or absent. -/
theorem breed_compatibility_seed_passthrough :
    ∀ (gd : GroomerDict) (dog_breed : String) (gai : AIAttempt) (v : ℚ),
      (gd.breed_compatibility = some v → 0 < v → v ≤ 10 →
        ∃ g, analyze_groomer_suitability false gai gd dog_breed = some g
          ∧ g.suitability_score = v)
      ∧ ((gd.breed_compatibility = none ∨ gd.breed_compatibility = some 0) →
        ∃ g, analyze_groomer_suitability false gai gd dog_breed = some g
          ∧ g.suitability_score
              = groomer_rule_bonus (gd.title.getD "Unknown Groomer") (gd.content.getD "")
                  dog_breed) := by
  intro gd dog_breed gai v
  constructor
  · intro hseed hv0 hv10
    have h1 : (groomer_score_reason false gai gd.breed_compatibility
        (gd.title.getD "Unknown Groomer") (gd.content.getD "") dog_breed).1 = v :=
      groomer_score_reason_seed gai gd.breed_compatibility _ _ dog_breed v hseed (ne_of_gt hv0)
    exact ⟨_, mkGroomerRecommendation_of_bounds _ _ _ _ _ _ _
      (by rw [h1]; exact ⟨le_of_lt hv0, hv10⟩), h1⟩
  · intro hseed
    have h1 : (groomer_score_reason false gai gd.breed_compatibility
        (gd.title.getD "Unknown Groomer") (gd.content.getD "") dog_breed).1
          = groomer_rule_bonus (gd.title.getD "Unknown Groomer") (gd.content.getD "") dog_breed :=
      groomer_score_reason_bonus gai gd.breed_compatibility _ _ dog_breed hseed
    have hb := groomer_rule_bonus_bounds (gd.title.getD "Unknown Groomer")
      (gd.content.getD "") dog_breed
    exact ⟨_, mkGroomerRecommendation_of_bounds _ _ _ _ _ _ _ (by rw [h1]; exact hb), h1⟩

/-- C9 witness: the seed 7 of the fixture groomer passes through as the
returned score. -/
theorem breed_compatibility_seed_passthrough_check :
    ∃ g, analyze_groomer_suitability false AIAttempt.failed seed_groomer_fixture "poodle" = some g
      ∧ g.suitability_score = 7 :=
  (breed_compatibility_seed_passthrough seed_groomer_fixture "poodle" AIAttempt.failed 7).1
    rfl (by norm_num) (by norm_num)

/-- C10 helper: the loop makes at most `rc + remaining` attempts starting
from `rc` attempts already made. -/
theorem get_async_loop_attempts_le (oracle : Nat → AttemptOutcome) :
    ∀ (remaining rc : Nat), attemptsOf (get_async_loop oracle rc remaining) ≤ rc + remaining := by
  intro remaining
  induction remaining with
  | zero => intro rc; simp [get_async_loop, attemptsOf]
  | succ n ih =>
      intro rc
      rcases h : oracle rc with s | e | m
      · simp only [get_async_loop, h]
        split
        · simp only [attemptsOf]; omega
        · split
          · simp only [attemptsOf]; omega
          · exact le_trans (ih (rc + 1)) (by omega)
      · simp only [get_async_loop, h]
        split
        · simp only [attemptsOf]; omega
        · exact le_trans (ih (rc + 1)) (by omega)
      · simp only [get_async_loop, h]
        simp only [attemptsOf]; omega

/-- C5 helper: from `rc` attempts made, a further attempt is made after
attempt `i ≥ rc` only when attempt `i` met a retry condition. -/
theorem get_async_loop_retry_only (oracle : Nat → AttemptOutcome) :
    ∀ (remaining rc i : Nat), rc ≤ i →
      i + 1 < attemptsOf (get_async_loop oracle rc remaining) →
      retryCondition (oracle i) := by
  intro remaining
  induction remaining with
  | zero =>
      intro rc i hrci hlt
      simp only [get_async_loop, attemptsOf] at hlt
      omega
  | succ n ih =>
      intro rc i hrci hlt
      rcases h : oracle rc with s | e | m
      · simp only [get_async_loop, h] at hlt
        by_cases h200 : s = 200
        · rw [if_pos h200] at hlt
          simp only [attemptsOf] at hlt
          omega
        · rw [if_neg h200] at hlt
          by_cases hnr : s ≠ 429 ∧ ¬ (500 ≤ s ∧ s < 600)
          · rw [if_pos hnr] at hlt
            simp only [attemptsOf] at hlt
            omega
          · rw [if_neg hnr] at hlt
            rcases eq_or_lt_of_le hrci with rfl | hgt
            · rw [h]
              show s = 429 ∨ (500 ≤ s ∧ s < 600)
              omega
            · exact ih (rc + 1) i hgt hlt
      · simp only [get_async_loop, h] at hlt
        by_cases hn : n = 0
        · rw [if_pos hn] at hlt
          simp only [attemptsOf] at hlt
          omega
        · rw [if_neg hn] at hlt
          rcases eq_or_lt_of_le hrci with rfl | hgt
          · rw [h]; trivial
          · exact ih (rc + 1) i hgt hlt
      · simp only [get_async_loop, h] at hlt
        simp only [attemptsOf] at hlt
        omega

/-- C5 helper: when every attempt in range meets a retry condition, the loop
never returns a response. -/
theorem get_async_loop_no_return (oracle : Nat → AttemptOutcome) :
    ∀ (remaining rc : Nat), (∀ i, i < rc + remaining → retryCondition (oracle i)) →
      ∀ s n, get_async_loop oracle rc remaining ≠ GetResult.returned s n := by
  intro remaining
  induction remaining with
  | zero => intro rc h s n; simp [get_async_loop]
  | succ k ih =>
      intro rc h s n
      rcases ho : oracle rc with st | e | m
      · have hr := h rc (by omega)
        rw [ho] at hr
        simp only [retryCondition] at hr
        simp only [get_async_loop, ho]
        rw [if_neg (by omega : ¬ st = 200),
          if_neg (by omega : ¬ (st ≠ 429 ∧ ¬ (500 ≤ st ∧ st < 600)))]
        exact ih (rc + 1) (fun i hi => h i (by omega)) s n
      · simp only [get_async_loop, ho]
        split
        · simp
        · exact ih (rc + 1) (fun i hi => h i (by omega)) s n
      · have hr := h rc (by omega)
        rw [ho] at hr
        exact hr.elim

/-- C5: `HttpClient.get_async` retries only on connection failure, read
timeout, connect timeout, HTTP 429 or HTTP 5xx; any response whose status is
neither 429 nor in 500-599 (such as a 404) is returned as-is on its attempt
without a retry; and when every attempt up to the cap meets a retry
condition the call raises rather than returning a response. -/
theorem get_async_retry_policy :
    ∀ (oracle : Nat → AttemptOutcome) (max_retries : Nat),
      (∀ s, oracle 0 = AttemptOutcome.resp s → s ≠ 429 → ¬ (500 ≤ s ∧ s < 600) →
        0 < max_retries → get_async oracle max_retries = GetResult.returned s 1)
      ∧ (∀ i, i + 1 < attemptsOf (get_async oracle max_retries) → retryCondition (oracle i))
      ∧ attemptsOf (get_async oracle max_retries) ≤ max_retries
      ∧ ((∀ i, i < max_retries → retryCondition (oracle i)) →
        ∀ s n, get_async oracle max_retries ≠ GetResult.returned s n) := by
  intro oracle mr
  refine ⟨?_, ?_, ?_, ?_⟩
  · intro s h0 h429 h5xx hpos
    cases mr with
    | zero => omega
    | succ k =>
        simp only [get_async, get_async_loop, h0]
        by_cases h200 : s = 200
        · rw [if_pos h200]
        · rw [if_neg h200, if_pos ⟨h429, h5xx⟩]
  · intro i hi
    exact get_async_loop_retry_only oracle mr 0 i (Nat.zero_le i) hi
  · have h := get_async_loop_attempts_le oracle mr 0
    simpa [get_async] using h
  · intro hall s n
    exact get_async_loop_no_return oracle mr 0 (fun i hi => hall i (by omega)) s n

/-- C5 witness: a 404 response is returned as-is on the first attempt. -/
theorem get_async_retry_policy_check :
    get_async (fun _ => AttemptOutcome.resp 404) 3 = GetResult.returned 404 1 :=
  (get_async_retry_policy (fun _ => AttemptOutcome.resp 404) 3).1 404 rfl
    (by decide) (by decide) (by decide)

/-- C10 (implicit): `HttpClient.get_async` terminates after at most
`max_retries` HTTP attempts: for every oracle of responses and transport
errors it returns or raises within that bound. -/
theorem get_async_attempts_bounded :
    ∀ (oracle : Nat → AttemptOutcome) (max_retries : Nat),
      attemptsOf (get_async oracle max_retries) ≤ max_retries := by
  intro oracle max_retries
  have h := get_async_loop_attempts_le oracle max_retries 0
  simpa [get_async] using h

/-- C6 helper: the card loop keeps exactly the successfully processed cards. -/
theorem extractCards_eq_filterMap :
    ∀ (cards : List Node), extractCards cards
      = cards.filterMap (fun c =>
          match processCard c with
          | .ok (some p) => some p
          | _ => none) := by
  intro cards
  induction cards with
  | nil => simp [extractCards]
  | cons c cs ih =>
      simp only [extractCards, List.filterMap_cons]
      cases hp : processCard c with
      | ok o =>
          cases o with
          | some p => simp [hp, ih]
          | none => simp [hp, ih]
      | error e => simp [hp, ih]

/-- C6: for every input HTML string and every total parse of it (html5lib
parsing is total and error-correcting), `extract_product_data` returns the
possibly-empty list of exactly the successfully processed product cards — a
per-card failure never escapes; a card missing its required link yields the
skip outcome; and removing a skipped or failing card from the card list
leaves the extraction of the remaining cards unchanged (extraction
continues). -/
theorem extract_product_data_total_and_skipping :
    ∀ (parse : String → List Node) (html : String),
      extract_product_data (parse html)
        = (selectList "div" "product-item" (parse html)).filterMap (fun c =>
            match processCard c with
            | .ok (some p) => some p
            | _ => none)
      ∧ (∀ card, selectOne "a" "product-item__image-wrapper" card = none →
          processCard card = Except.ok none)
      ∧ (∀ pre post (card : Node),
          (processCard card = Except.ok none ∨ ∃ e, processCard card = Except.error e) →
          extractCards (pre ++ card :: post) = extractCards (pre ++ post)) := by
  intro parse html
  refine ⟨extractCards_eq_filterMap _, ?_, ?_⟩
  · intro card hnone
    unfold processCard
    rw [hnone]
  · intro pre post card hskip
    induction pre with
    | nil =>
        simp only [List.nil_append]
        rcases hskip with h | ⟨e, h⟩
        · simp only [extractCards, h]
        · simp only [extractCards, h]
    | cons c cs ih =>
        simp only [List.cons_append, extractCards, List.append_eq]
        rw [ih]

/-- C6 witness: a concrete product card without its link is skipped and
extraction of the remaining (empty) card list continues. -/
theorem extract_product_data_total_and_skipping_check :
    extractCards ([] ++ Node.elem "div" ["product-item"] [] [] :: []) = extractCards ([] ++ []) :=
  (extract_product_data_total_and_skipping (fun _ => []) "").2.2 [] []
    (Node.elem "div" ["product-item"] [] [])
    (Or.inl (by simp [processCard, selectOne, childrenOf, selectList]))

/-! ### C7: groomer URL canonicalization -/

theorem isPrefixOf_append (p : List Char) :
    ∀ (a b : List Char), p.isPrefixOf a = true → p.isPrefixOf (a ++ b) = true := by
  induction p with
  | nil => intro a b _; cases a ++ b <;> rfl
  | cons c cs ih =>
      intro a b h
      cases a with
      | nil => simp [List.isPrefixOf] at h
      | cons d ds =>
          simp only [List.cons_append, List.isPrefixOf, Bool.and_eq_true] at h ⊢
          exact ⟨h.1, ih ds b h.2⟩

theorem listContains_nil_needle : ∀ (l : List Char), listContains [] l = true := by
  intro l
  cases l with
  | nil => rfl
  | cons c rest => simp [listContains, List.isPrefixOf]

theorem listContains_append_left (p : List Char) :
    ∀ (a b : List Char), listContains p a = true → listContains p (a ++ b) = true := by
  intro a
  induction a with
  | nil =>
      intro b h
      cases p with
      | nil => exact listContains_nil_needle b
      | cons x xs => simp [listContains, List.isEmpty] at h
  | cons c rest ih =>
      intro b h
      simp only [listContains, Bool.or_eq_true] at h
      simp only [List.cons_append, listContains, Bool.or_eq_true]
      rcases h with h | h
      · exact Or.inl (isPrefixOf_append p (c :: rest) b h)
      · exact Or.inr (ih b h)

/-- A pattern contained in `s` is contained in `s ++ t`. -/
theorem strContains_append_left (s t pat : String) (h : strContains s pat = true) :
    strContains (s ++ t) pat = true := by
  unfold strContains at h ⊢
  rw [String.data_append s t]
  exact listContains_append_left pat.data s.data t.data h

/-- Two strings cannot be equal when a pattern occurs in one but not the
other. -/
theorem ne_of_strContains_ne (a b pat : String) (ha : strContains a pat = true)
    (hb : strContains b pat = false) : a ≠ b := by
  intro he
  rw [he, hb] at ha
  cases ha

/-- A URL that fails the profile test contains none of the profile patterns. -/
theorem not_profile_no_patterns (url : String) (h : is_profile_url url = false) :
    strContains url "/profile/" = false ∧ strContains url "/philippines/grooming/" = false := by
  unfold is_profile_url profile_url_patterns at h
  simp only [List.any_cons, List.any_nil, Bool.or_eq_false_iff] at h
  exact ⟨h.1, h.2.1⟩

/-- C7 counterexample input: the listing-shaped URL of the spec scenario,
with no groomer id. -/
def listing_groomer_fixture : GroomerDict :=
  { title := some "Happy Paws"
  , url := some "https://site/s/dog-grooming/manila--metro-manila--philippines"
  , content := some ""
  , id := none
  , rating := none
  , reviews := []
  , services := []
  , location := none
  , contact_info := none
  , image_url := none
  , breed_compatibility := some 8 }

/-- C7 counterexample: the listing URL
`https://site/s/dog-grooming/manila--metro-manila--philippines` with breed
"poodle" and no groomer id is *not* rewritten: the recommendation that
`analyze_groomer_suitability` returns carries the original listing-shaped
URL (it matches none of the profile patterns and does not contain
`petbacker.ph/s/`, so every rewrite branch falls through), contradicting the
claim that a listing-shaped URL is always replaced by a profile-shaped one. -/
theorem groomer_listing_url_kept_counterexample :
    (analyze_groomer_suitability false AIAttempt.failed listing_groomer_fixture "poodle").map
        (fun g => g.url)
      = some "https://site/s/dog-grooming/manila--metro-manila--philippines"
    ∧ is_profile_url "https://site/s/dog-grooming/manila--metro-manila--philippines" = false := by
  constructor
  · decide
  · decide

/-- C7 (amended): characterization of the URL canonicalization of
`analyze_groomer_suitability`.  An already profile-shaped URL is returned
unchanged; an empty URL becomes the breed-specialist profile URL; a
listing-shaped URL is rewritten — to `/profile/<id>` given a usable id, else
to `/philippines/grooming/<location>/<name-slug>` when it contains
`petbacker.ph/s/` — and the rewritten URL is profile-shaped and differs from
the original; any other listing-shaped URL is returned unchanged. -/
theorem groomer_url_rewrite_characterization :
    ∀ (gd : GroomerDict) (dog_breed : String),
      (gd.url.getD "" = "" →
        analyze_groomer_url gd dog_breed
          = "https://www.petbacker.ph/pet-sitter/" ++ slugOf dog_breed ++
            "-specialist/manila--metro-manila--philippines"
        ∧ is_profile_url (analyze_groomer_url gd dog_breed) = true)
      ∧ (is_profile_url (gd.url.getD "") = true →
        analyze_groomer_url gd dog_breed = gd.url.getD "")
      ∧ (gd.url.getD "" ≠ "" → is_profile_url (gd.url.getD "") = false →
        gd.id.getD "" ≠ "" → strContains (gd.id.getD "") "groomer-" = false →
        analyze_groomer_url gd dog_breed
            = "https://www.petbacker.ph/profile/" ++ gd.id.getD ""
          ∧ is_profile_url (analyze_groomer_url gd dog_breed) = true
          ∧ analyze_groomer_url gd dog_breed ≠ gd.url.getD "")
      ∧ (gd.url.getD "" ≠ "" → is_profile_url (gd.url.getD "") = false →
        (gd.id.getD "" = "" ∨ strContains (gd.id.getD "") "groomer-" = true) →
        strContains (gd.url.getD "") "petbacker.ph/s/" = true →
        analyze_groomer_url gd dog_breed
            = "https://www.petbacker.ph/philippines/grooming/"
              ++ listing_location (gd.url.getD "") ++ "/"
              ++ slugOf (gd.title.getD "Unknown Groomer")
          ∧ is_profile_url (analyze_groomer_url gd dog_breed) = true
          ∧ analyze_groomer_url gd dog_breed ≠ gd.url.getD "")
      ∧ (gd.url.getD "" ≠ "" → is_profile_url (gd.url.getD "") = false →
        (gd.id.getD "" = "" ∨ strContains (gd.id.getD "") "groomer-" = true) →
        strContains (gd.url.getD "") "petbacker.ph/s/" = false →
        analyze_groomer_url gd dog_breed = gd.url.getD "") := by
  intro gd dog_breed
  refine ⟨?_, ?_, ?_, ?_, ?_⟩
  · intro hempty
    unfold analyze_groomer_url
    rw [if_pos hempty]
    refine ⟨rfl, ?_⟩
    unfold is_profile_url profile_url_patterns
    simp only [List.any_cons, Bool.or_eq_true]
    refine Or.inr (Or.inr (Or.inr (Or.inl ?_)))
    exact strContains_append_left _ _ _
      (strContains_append_left _ _ _ (by decide))
  · intro hprof
    by_cases hempty : gd.url.getD "" = ""
    · rw [hempty] at hprof
      simp [is_profile_url, profile_url_patterns, strContains, listContains] at hprof
    · unfold analyze_groomer_url
      rw [if_neg hempty, if_pos hprof]
  · intro hempty hprof hid1 hid2
    have hurl : analyze_groomer_url gd dog_breed
        = "https://www.petbacker.ph/profile/" ++ gd.id.getD "" := by
      unfold analyze_groomer_url
      rw [if_neg hempty, if_neg (by simp [hprof]), if_pos ⟨hid1, hid2⟩]
    have hcontains : strContains (analyze_groomer_url gd dog_breed) "/profile/" = true := by
      rw [hurl]
      exact strContains_append_left _ _ _ (by decide)
    refine ⟨hurl, ?_, ?_⟩
    · unfold is_profile_url profile_url_patterns
      simp only [List.any_cons, Bool.or_eq_true]
      exact Or.inl hcontains
    · exact ne_of_strContains_ne _ _ "/profile/" hcontains (not_profile_no_patterns _ hprof).1
  · intro hempty hprof hid hpb
    have hnid : ¬ (gd.id.getD "" ≠ "" ∧ strContains (gd.id.getD "") "groomer-" = false) := by
      rcases hid with h | h
      · intro hc; exact hc.1 h
      · intro hc; rw [h] at hc; cases hc.2
    have hurl : analyze_groomer_url gd dog_breed
        = "https://www.petbacker.ph/philippines/grooming/"
          ++ listing_location (gd.url.getD "") ++ "/"
          ++ slugOf (gd.title.getD "Unknown Groomer") := by
      unfold analyze_groomer_url
      rw [if_neg hempty, if_neg (by simp [hprof]), if_neg hnid,
        if_neg (by simp [(not_profile_no_patterns _ hprof).2]), if_pos hpb]
    have hcontains : strContains (analyze_groomer_url gd dog_breed)
        "/philippines/grooming/" = true := by
      rw [hurl]
      exact strContains_append_left _ _ _
        (strContains_append_left _ _ _ (strContains_append_left _ _ _ (by decide)))
    refine ⟨hurl, ?_, ?_⟩
    · unfold is_profile_url profile_url_patterns
      simp only [List.any_cons, Bool.or_eq_true]
      exact Or.inr (Or.inl hcontains)
    · exact ne_of_strContains_ne _ _ "/philippines/grooming/" hcontains
        (not_profile_no_patterns _ hprof).2
  · intro hempty hprof hid hpb
    have hnid : ¬ (gd.id.getD "" ≠ "" ∧ strContains (gd.id.getD "") "groomer-" = false) := by
      rcases hid with h | h
      · intro hc; exact hc.1 h
      · intro hc; rw [h] at hc; cases hc.2
    unfold analyze_groomer_url
    rw [if_neg hempty, if_neg (by simp [hprof]), if_neg hnid,
      if_neg (by simp [(not_profile_no_patterns _ hprof).2]), if_neg (by simp [hpb])]

/-- C7 witness: an already profile-shaped URL is returned unchanged. -/
theorem groomer_url_rewrite_characterization_check :
    analyze_groomer_url seed_groomer_fixture "poodle"
      = "https://www.petbacker.ph/profile/abc123" :=
  (groomer_url_rewrite_characterization seed_groomer_fixture "poodle").2.1 (by decide)

/-! ### C2: response lists sorted stably by descending score -/

/-- C2: in every `RecommendationResponse` built by
`get_product_recommendations`, the `recommendations` list is the stable
descending sort by `suitability_score` of the analyzed products in input
order, and the `groomer_recommendations` list (when present) is pinned
branch by branch: the error-fallback singleton when the stage raises, the
fallback singleton when the search or the analyses came up empty, and
otherwise the stable descending sort of the analyzed groomers in input
order.  Each list is pairwise descending, and two items of equal score that
stand in input order (a pair sublist of the actual pre-sort list) keep that
relative order in the output. -/
theorem response_lists_sorted_desc_stable :
    ∀ (products : List ProductDict) (query dog_breed age : String)
      (reviews_for : Nat → Except String (List ProductReview)) (ai_for : Nat → AIAttempt)
      (max_products : Nat) (include_groomers : Bool)
      (scraper_outcome : Except String (List ScrapedGroomer)) (hasKey : Bool)
      (groomer_ai_for : Nat → AIAttempt) (groomer_stage_raises : Bool)
      (r : RecommendationResponse),
      r = get_product_recommendations products query dog_breed age reviews_for ai_for
        max_products include_groomers scraper_outcome hasKey groomer_ai_for
        groomer_stage_raises →
      (r.recommendations
          = sort_recs (product_recs_unsorted products reviews_for ai_for dog_breed age
              max_products)
        ∧ List.Pairwise (fun a b => b.suitability_score ≤ a.suitability_score)
            r.recommendations
        ∧ (∀ a b, a.suitability_score = b.suitability_score →
            [a, b].Sublist
              (product_recs_unsorted products reviews_for ai_for dog_breed age max_products) →
            [a, b].Sublist r.recommendations))
      ∧ (∀ g, r.groomer_recommendations = some g →
          List.Pairwise (fun a b => b.suitability_score ≤ a.suitability_score) g
          ∧ (groomer_stage_raises = true → g = [fallback_error_groomer dog_breed])
          ∧ (groomer_stage_raises = false →
              ((search_for_groomers scraper_outcome dog_breed "Philippines").isEmpty = true →
                g = [fallback_groomer dog_breed])
              ∧ ((search_for_groomers scraper_outcome dog_breed "Philippines").isEmpty = false →
                (groomer_recs_unsorted scraper_outcome hasKey groomer_ai_for dog_breed).isEmpty
                    = true →
                g = [fallback_groomer dog_breed])
              ∧ ((search_for_groomers scraper_outcome dog_breed "Philippines").isEmpty = false →
                (groomer_recs_unsorted scraper_outcome hasKey groomer_ai_for dog_breed).isEmpty
                    = false →
                g = sort_groomers (groomer_recs_unsorted scraper_outcome hasKey groomer_ai_for
                    dog_breed)
                ∧ ∀ a b, a.suitability_score = b.suitability_score →
                    [a, b].Sublist
                      (groomer_recs_unsorted scraper_outcome hasKey groomer_ai_for dog_breed) →
                    [a, b].Sublist g))) := by
  intro products query dog_breed age reviews_for ai_for max_products include_groomers
    scraper_outcome hasKey groomer_ai_for groomer_stage_raises r hr
  subst hr
  constructor
  · refine ⟨rfl, ?_, ?_⟩
    · exact List.sorted_insertionSort prodDesc _
    · intro a b hs hsub
      exact List.pair_sublist_insertionSort (le_of_eq hs.symm) hsub
  · intro g hg
    have hg' : (groomer_stage include_groomers groomer_stage_raises scraper_outcome hasKey
        groomer_ai_for dog_breed).1 = some g := hg
    cases include_groomers with
    | false => simp [groomer_stage] at hg'
    | true =>
        cases groomer_stage_raises with
        | true =>
            unfold groomer_stage at hg'
            rw [if_pos rfl, if_pos rfl] at hg'
            obtain rfl : g = [fallback_error_groomer dog_breed] := (Option.some.inj hg').symm
            exact ⟨List.pairwise_singleton _ _, fun _ => rfl,
              fun hc => absurd hc (by simp)⟩
        | false =>
            unfold groomer_stage at hg'
            rw [if_pos rfl, if_neg (by simp)] at hg'
            by_cases h1 : (search_for_groomers scraper_outcome dog_breed "Philippines").isEmpty
              = true
            · rw [if_pos h1] at hg'
              obtain rfl : g = [fallback_groomer dog_breed] := (Option.some.inj hg').symm
              refine ⟨List.pairwise_singleton _ _, fun hc => absurd hc (by simp),
                fun _ => ⟨fun _ => rfl, fun _ _ => rfl, ?_⟩⟩
              intro h1f
              rw [h1f] at h1
              exact absurd h1 (by simp)
            · rw [if_neg h1] at hg'
              by_cases h2 : (groomer_recs_unsorted scraper_outcome hasKey groomer_ai_for
                  dog_breed).isEmpty = true
              · rw [if_pos h2] at hg'
                obtain rfl : g = [fallback_groomer dog_breed] := (Option.some.inj hg').symm
                refine ⟨List.pairwise_singleton _ _, fun hc => absurd hc (by simp),
                  fun _ => ⟨fun _ => rfl, fun _ _ => rfl, ?_⟩⟩
                intro _ h2f
                rw [h2f] at h2
                exact absurd h2 (by simp)
              · rw [if_neg h2] at hg'
                obtain rfl : g = sort_groomers (groomer_recs_unsorted scraper_outcome hasKey
                    groomer_ai_for dog_breed) := (Option.some.inj hg').symm
                refine ⟨List.sorted_insertionSort groomDesc _,
                  fun hc => absurd hc (by simp), fun _ => ⟨?_, ?_, fun _ _ => ⟨rfl, ?_⟩⟩⟩
                · intro hA
                  exact (h1 hA).elim
                · intro _ h2t
                  exact (h2 h2t).elim
                · intro a b hs hsub
                  exact List.pair_sublist_insertionSort (le_of_eq hs.symm) hsub

/-- C2 witness: with the groomer stage raising, the groomer list is present
and the theorem yields its sortedness. -/
theorem response_lists_sorted_desc_stable_check :
    List.Pairwise
      (fun a b : GroomerRecommendation => b.suitability_score ≤ a.suitability_score)
      [fallback_error_groomer "poodle"] := by
  have h := response_lists_sorted_desc_stable [] "q" "poodle" "adult"
    (fun _ => Except.error "e") (fun _ => AIAttempt.noKey) 5 true (Except.ok []) false
    (fun _ => AIAttempt.noKey) true _ rfl
  exact (h.2 [fallback_error_groomer "poodle"] rfl).1

end Alf
